import Mathlib

/-!
Verification of the core of a WebSocket server (`src/net/ws_server.cc`):
handshake validation and response synthesis, the per-connection state
machine, send-buffer draining, admission control and connection teardown.
The C++ code is shallowly embedded: strings become `String`/`List Char`,
byte buffers become `List Nat`, the connection table becomes an
association list, and the poller callbacks become pure transition
functions on explicit state.
-/

namespace WsServer

/-! ### String helpers mirroring the std::string operations used by the source -/

/-- C++ `s.substr(0, 3)` as a character list. -/
def strTakeChars (n : Nat) (s : String) : List Char :=
  s.toList.take n

/-- C++ `s.substr(s.rfind(" ") + 1)`: the token after the last space, or
`none` when `rfind` returns `npos` (no space in the string). -/
def tokenAfterLastSpace (s : String) : Option String :=
  let r := s.toList.reverse.takeWhile (fun c => c ≠ ' ')
  if r.length = s.toList.length then none else some (String.mk r.reverse)

/-- C++ `hay.find(needle) != string::npos`: substring containment. -/
def strContainsSub (hay needle : String) : Bool :=
  hay.toList.tails.any (fun t => needle.toList.isPrefixOf t)

/-- The method token of a request line as the spec words it: the
characters before the first space. (Spec-side definition, used to compare
the validator against the specification text.) -/
def methodToken (s : String) : String :=
  String.mk (s.toList.takeWhile (fun c => c ≠ ' '))

/-! ### HTTP request/response model -/

/-- A parsed HTTP request: the request line and the header list
(`HTTPRequest` collaborator: `first_line`, `has_header`,
`get_header_value`). -/
structure HTTPRequest where
  firstLine : String
  headers : List (String × String)
deriving DecidableEq

/-- `request.has_header(key)`. -/
def hasHeader (r : HTTPRequest) (key : String) : Bool :=
  r.headers.any (fun p => p.1 == key)

/-- `request.get_header_value(key)`; the source only calls it after
`has_header`, so the default for a missing key is never observed. -/
def getHeaderValue (r : HTTPRequest) (key : String) : String :=
  match r.headers.lookup key with
  | some v => v
  | none => ""

/-- An HTTP response under construction: status line, headers, body
(`set_first_line`, `add_header`, `read_in_body`). -/
structure HTTPResponse where
  firstLine : String
  headers : List (String × String)
  body : String
deriving DecidableEq

/-! ### Handshake validator (`is_valid_handshake_request`, ws_server.cc:21) -/

/-- `is_valid_handshake_request`: the five conjunctive checks of the
source, in order: first line starts with the three characters `GET`
(`first_line.substr(0, 3)`), the token after the last space is
`HTTP/1.1` or `HTTP/2`, the `Connection` header exists and contains the
substring `Upgrade`, the `Upgrade` header exists and equals `websocket`,
and a `Sec-WebSocket-Key` header exists. -/
def is_valid_handshake_request (r : HTTPRequest) : Bool :=
  (strTakeChars 3 r.firstLine == "GET".toList) &&
  (match tokenAfterLastSpace r.firstLine with
   | none => false
   | some tok => tok == "HTTP/1.1" || tok == "HTTP/2") &&
  (hasHeader r "Connection" && strContainsSub (getHeaderValue r "Connection") "Upgrade") &&
  (hasHeader r "Upgrade" && (getHeaderValue r "Upgrade" == "websocket")) &&
  hasHeader r "Sec-WebSocket-Key"

/-! ### SHA-1 and Base64 (the CryptoPP pipeline used for Sec-WebSocket-Accept) -/

/-- Reduce modulo 2^32 (32-bit machine arithmetic). -/
def w32 (n : Nat) : Nat := n % 4294967296

/-- Rotate a 32-bit word left by `k` bits. -/
def rotl (k x : Nat) : Nat :=
  w32 (x <<< k) ||| (x >>> (32 - k))

/-- Big-endian bytes of a 64-bit quantity (the SHA-1 length field). -/
def be8 (n : Nat) : List Nat :=
  (List.range 8).map (fun i => (n >>> (8 * (7 - i))) % 256)

/-- Big-endian bytes of a 32-bit word. -/
def be4 (n : Nat) : List Nat :=
  (List.range 4).map (fun i => (n >>> (8 * (3 - i))) % 256)

/-- SHA-1 padding: append `0x80`, zero bytes up to 56 mod 64, then the
bit length as a 64-bit big-endian integer. -/
def sha1Pad (msg : List Nat) : List Nat :=
  let z := (119 - msg.length % 64) % 64
  msg ++ (128 :: List.replicate z 0) ++ be8 (msg.length * 8)

/-- Group bytes into big-endian 32-bit words. -/
def bytesToWords : List Nat → List Nat
  | a :: b :: c :: d :: rest =>
      (a * 16777216 + b * 65536 + c * 256 + d) :: bytesToWords rest
  | _ => []

/-- Split a byte list into 64-byte blocks; the fuel argument (at least
the list length) keeps the recursion structural. -/
def chunks64Go : Nat → List Nat → List (List Nat)
  | 0, _ => []
  | _, [] => []
  | fuel + 1, x :: xs => ((x :: xs).take 64) :: chunks64Go fuel ((x :: xs).drop 64)

/-- Split a byte list into 64-byte blocks. -/
def chunks64 (l : List Nat) : List (List Nat) := chunks64Go l.length l

/-- Extend the 16-word block to the 80-word SHA-1 message schedule,
one word at a time. -/
def extendSched (ws : List Nat) : Nat → List Nat
  | 0 => ws
  | n + 1 =>
      let l := ws.length
      let next := rotl 1 ((ws.getD (l - 3) 0) ^^^ (ws.getD (l - 8) 0) ^^^
                          (ws.getD (l - 14) 0) ^^^ (ws.getD (l - 16) 0))
      extendSched (ws ++ [next]) n

/-- The five-word SHA-1 chaining state. -/
structure Sha1St where
  a : Nat
  b : Nat
  c : Nat
  d : Nat
  e : Nat

/-- One SHA-1 round: round index `i` paired with schedule word `w`. -/
def sha1Round (st : Sha1St) (iw : Nat × Nat) : Sha1St :=
  let i := iw.1
  let w := iw.2
  let f :=
    if i < 20 then (st.b &&& st.c) ||| ((st.b ^^^ 4294967295) &&& st.d)
    else if i < 40 then st.b ^^^ st.c ^^^ st.d
    else if i < 60 then (st.b &&& st.c) ||| (st.b &&& st.d) ||| (st.c &&& st.d)
    else st.b ^^^ st.c ^^^ st.d
  let k :=
    if i < 20 then 1518500249
    else if i < 40 then 1859775393
    else if i < 60 then 2400959708
    else 3395469782
  let temp := w32 (rotl 5 st.a + f + st.e + k + w)
  ⟨temp, st.a, rotl 30 st.b, st.c, st.d⟩

/-- Compress one 64-byte block into the chaining state. -/
def sha1Block (h : Sha1St) (block : List Nat) : Sha1St :=
  let ws := extendSched (bytesToWords block) 64
  let r := ((List.range 80).zip ws).foldl sha1Round h
  ⟨w32 (h.a + r.a), w32 (h.b + r.b), w32 (h.c + r.c), w32 (h.d + r.d), w32 (h.e + r.e)⟩

/-- SHA-1 of a byte list: 20-byte digest. -/
def sha1Bytes (msg : List Nat) : List Nat :=
  let init : Sha1St := ⟨1732584193, 4023233417, 2562383102, 271733878, 3285377520⟩
  let h := (chunks64 (sha1Pad msg)).foldl sha1Block init
  be4 h.a ++ be4 h.b ++ be4 h.c ++ be4 h.d ++ be4 h.e

/-- The standard Base64 alphabet. -/
def b64Alphabet : List Char :=
  "ABCDEFGHIJKLMNOPQRSTUVWXYZabcdefghijklmnopqrstuvwxyz0123456789+/".toList

/-- One Base64 output character. -/
def b64Char (i : Nat) : Char := b64Alphabet.getD i 'A'

/-- Base64-encode a byte list (no line breaks, `=` padding), as CryptoPP
`Base64Encoder(..., false)` produces. -/
def b64Encode : List Nat → List Char
  | [] => []
  | [a] => [b64Char (a >>> 2), b64Char ((a % 4) <<< 4), '=', '=']
  | [a, b] => [b64Char (a >>> 2), b64Char (((a % 4) <<< 4) ||| (b >>> 4)),
               b64Char ((b % 16) <<< 2), '=']
  | a :: b :: c :: rest =>
      b64Char (a >>> 2) :: b64Char (((a % 4) <<< 4) ||| (b >>> 4)) ::
      b64Char (((b % 16) <<< 2) ||| (c >>> 6)) :: b64Char (c % 64) ::
      b64Encode rest

/-- Bytes of an ASCII string. -/
def strBytes (s : String) : List Nat := s.toList.map Char.toNat

/-- `WS_MAGIC_STRING` (ws_server.cc:18). -/
def wsMagicString : String := "258EAFA5-E914-47DA-95CA-C5AB0DC85B11"

/-- The Sec-WebSocket-Accept value: `base64(sha1(key + WS_MAGIC_STRING))`
(ws_server.cc:85-92). -/
def secWebSocketAccept (key : String) : String :=
  String.mk (b64Encode (sha1Bytes (strBytes (key ++ wsMagicString))))

/-! ### Handshake response synthesis (`create_handshake_response`, ws_server.cc:60) -/

/-- `create_handshake_response`: 400 for an invalid handshake, 403 when
valid but without an `Origin` header, otherwise 101 with the computed
`Sec-WebSocket-Accept` header. -/
def create_handshake_response (r : HTTPRequest) : HTTPResponse :=
  if is_valid_handshake_request r = false then
    ⟨"HTTP/1.1 400 Bad Request", [("Content-Length", "0"), ("Connection", "close")], ""⟩
  else if hasHeader r "Origin" = false then
    ⟨"HTTP/1.1 403 Forbidden", [("Content-Length", "0"), ("Connection", "close")], ""⟩
  else
    ⟨"HTTP/1.1 101 Switching Protocols",
     [("Connection", "Upgrade"), ("Upgrade", "websocket"),
      ("Sec-WebSocket-Accept", secWebSocketAccept (getHeaderValue r "Sec-WebSocket-Key"))],
     ""⟩

/-! ### Connection state machine, frames and messages -/

/-- `Connection::State` (ws_server.hh, as listed in the spec state table). -/
inductive CState
  | NotConnected
  | Connecting
  | Connected
  | Closing
  | Closed
deriving DecidableEq

/-- `WSFrame::OpCode`. -/
inductive OpCode
  | continuation
  | text
  | binary
  | close
  | ping
  | pong
deriving DecidableEq

/-- A WebSocket frame `(fin, opcode, payload)`. -/
structure WSFrame where
  fin : Bool
  opcode : OpCode
  payload : String
deriving DecidableEq

/-- A reassembled WebSocket message produced by the message parser. -/
inductive WSMessage
  | text (p : String)
  | binary (p : String)
  | close (p : String)
  | ping (p : String)
  | pong (p : String)
deriving DecidableEq

/-- An element of a connection's `send_buffer`. The source stores
serialized byte strings; frames are kept structured here (serialization
`WSFrame::to_string` lives outside src/), which loses no information the
server core inspects. -/
inductive OutItem
  | raw (bytes : String)
  | frame (f : WSFrame)
deriving DecidableEq

/-- A connection: state tag, outbound FIFO send buffer,
transport-internal buffered byte count (nonzero only for the TLS
transport) and the peer address. -/
structure Conn where
  state : CState
  sendBuffer : List OutItem
  socketBuffered : Nat
  peerAddress : String
deriving DecidableEq

/-- Modelled from the spec: `Connection::data_to_send` (declared in the
missing header ws_server.hh) — true iff the send buffer is non-empty or
the transport has internally buffered bytes. -/
def dataToSend (c : Conn) : Bool :=
  (!c.sendBuffer.isEmpty) || decide (0 < c.socketBuffered)

/-- The read-direction activation predicate (ws_server.cc:305-309). -/
def readPred (c : Conn) : Bool :=
  (c.state != CState.Connecting) && (c.state != CState.Closed)

/-- The write-direction activation predicate (ws_server.cc:341-348). -/
def writePred (c : Conn) : Bool :=
  (c.state == CState.Connecting) ||
  (((c.state == CState.Connected) || (c.state == CState.Closing) ||
    (c.state == CState.Closed)) && dataToSend c)

/-- `WSServer::queue_frame` restricted to one connection
(ws_server.cc:369-384): refuse unless Connected, else append the frame
to the send buffer. -/
def queueFrameConn (c : Conn) (f : WSFrame) : Conn × Bool :=
  if c.state = CState.Connected then
    ({ c with sendBuffer := c.sendBuffer ++ [OutItem.frame f] }, true)
  else (c, false)

/-- Result of one firing of the Connected branch of the read action:
the updated connection, the messages passed to `message_callback_`, and
the messages still queued inside the message parser. -/
structure DispatchOut where
  conn : Conn
  delivered : List WSMessage
  parserRest : List WSMessage
deriving DecidableEq

/-- The Connected branch of the read action (ws_server.cc:238-270),
applied to the message parser's queue of completed messages: if the
queue is non-empty, pop the front message and dispatch on its type
(Text/Binary to the message callback; Close echoes a Close frame with
the client payload and moves to Closed; Ping queues an empty Pong; Pong
is ignored). -/
def connectedDispatch (q : List WSMessage) (c : Conn) : DispatchOut :=
  match q with
  | [] => ⟨c, [], []⟩
  | m :: rest =>
    match m with
    | WSMessage.text _ => ⟨c, [m], rest⟩
    | WSMessage.binary _ => ⟨c, [m], rest⟩
    | WSMessage.close p =>
        let c1 := (queueFrameConn c ⟨true, OpCode.close, p⟩).1
        ⟨{ c1 with state := CState.Closed }, [], rest⟩
    | WSMessage.ping _ =>
        ⟨(queueFrameConn c ⟨true, OpCode.pong, ""⟩).1, [], rest⟩
    | WSMessage.pong _ => ⟨c, [], rest⟩

/-! ### Per-connection lifecycle events (for the at-most-one-Close invariant) -/

/-- The events that can touch one connection: handshake completion
(valid or not), a write-readiness firing, a parsed incoming message, a
message-parser failure, the application calls `close_connection` /
`queue_frame`, and `drop_connection` marking the connection Closed. -/
inductive Ev
  | handshakeOk
  | handshakeBad
  | writeFire
  | recv (m : WSMessage)
  | parseFail
  | appClose
  | appQueue (f : WSFrame)
  | evDrop

/-- `WSServer::close_connection` on one connection
(ws_server.cc:401-414): only from Connected, queue an empty Close frame
and move to Closing. The second component counts the Close frames this
call appended. -/
def closeConnectionConn (c : Conn) : Conn × Nat :=
  if c.state = CState.Connected then
    ({ (queueFrameConn c ⟨true, OpCode.close, ""⟩).1 with state := CState.Closing }, 1)
  else (c, 0)

/-- Number of Close frames the Connected read branch appends when it
handles message `m` while Connected (exactly the Close echo). -/
def closeEchoCount : WSMessage → Nat
  | WSMessage.close _ => 1
  | _ => 0

/-- One lifecycle step on (connection, count of Close frames queued by
the two Close-queueing sites). Each branch mirrors the corresponding
handler in ws_server.cc: the handshake branch (208-227), the write
action (313-339), the Connected and Closing read branches (228-298),
`close_connection` (401-414), `queue_frame` (369-384) and
`drop_connection` (416-429, connection present). -/
def lifeStep (s : Conn × Nat) : Ev → Conn × Nat
  | Ev.handshakeOk =>
      if s.1.state = CState.NotConnected then
        ({ s.1 with sendBuffer := s.1.sendBuffer ++ [OutItem.raw "response101"],
                    state := CState.Connecting }, s.2)
      else s
  | Ev.handshakeBad =>
      if s.1.state = CState.NotConnected then
        ({ s.1 with sendBuffer := s.1.sendBuffer ++ [OutItem.raw "response4xx"],
                    state := CState.Closed }, s.2)
      else s
  | Ev.writeFire =>
      if s.1.state = CState.Connecting then
        ({ s.1 with sendBuffer := [], socketBuffered := 0, state := CState.Connected }, s.2)
      else if ((s.1.state = CState.Connected ∨ s.1.state = CState.Closing ∨
                s.1.state = CState.Closed) ∧ dataToSend s.1 = true) then
        ({ s.1 with sendBuffer := [], socketBuffered := 0 }, s.2)
      else s
  | Ev.recv m =>
      if s.1.state = CState.Connected then
        ((connectedDispatch [m] s.1).conn, s.2 + closeEchoCount m)
      else if s.1.state = CState.Closing then
        match m with
        | WSMessage.close _ => ({ s.1 with state := CState.Closed, sendBuffer := [] }, s.2)
        | _ => s
      else s
  | Ev.parseFail =>
      ((closeConnectionConn s.1).1, s.2 + (closeConnectionConn s.1).2)
  | Ev.appClose =>
      ((closeConnectionConn s.1).1, s.2 + (closeConnectionConn s.1).2)
  | Ev.appQueue f => ((queueFrameConn s.1 f).1, s.2)
  | Ev.evDrop => ({ s.1 with state := CState.Closed }, s.2)

/-- A fresh connection as constructed at accept time. -/
def initConn : Conn := ⟨CState.NotConnected, [], 0, ""⟩

/-- Run a connection's whole lifetime from the initial state. -/
def lifeRun (evs : List Ev) : Conn × Nat :=
  evs.foldl lifeStep (initConn, 0)

/-! ### Connection table operations -/

/-- The server state the table operations touch: the connection table
`connections_`, the `closed_connections_` set, and the (ghost) log of
`close_callback_` invocations. -/
structure ServerSt where
  conns : List (Nat × Conn)
  closedSet : List Nat
  closeLog : List Nat
deriving DecidableEq

/-- `connections_.find(id)` — the non-throwing lookup. -/
def findConn : List (Nat × Conn) → Nat → Option Conn
  | [], _ => none
  | p :: rest, id => if p.1 = id then some p.2 else findConn rest id

/-- Replace the connection stored under `id`. -/
def updateConn (t : List (Nat × Conn)) (id : Nat) (c : Conn) : List (Nat × Conn) :=
  t.map (fun p => if p.1 = id then (id, c) else p)

/-- `std::set` insertion into the closed set. -/
def insertClosed (s : List Nat) (id : Nat) : List Nat :=
  if id ∈ s then s else id :: s

/-- `WSServer::drop_connection` (ws_server.cc:416-429): missing
identifier returns silently; otherwise set state Closed, invoke
`close_callback_` (recorded in the log) and insert the identifier into
the closed set. -/
def drop_connection (st : ServerSt) (id : Nat) : ServerSt :=
  match findConn st.conns id with
  | none => st
  | some c =>
      { conns := updateConn st.conns id { c with state := CState.Closed },
        closedSet := insertClosed st.closedSet id,
        closeLog := st.closeLog ++ [id] }

/-- `connections_.at(id)` — throws `std::out_of_range` when the key is
missing, modelled as `Except.error`. -/
def atConn (t : List (Nat × Conn)) (id : Nat) : Except Unit Conn :=
  match findConn t id with
  | none => Except.error ()
  | some c => Except.ok c

/-- `WSServer::queue_frame` (ws_server.cc:369-384): `at` lookup (throws
on a missing id), refuse with `false` unless Connected, else append the
frame and return `true`. -/
def queue_frame (st : ServerSt) (id : Nat) (f : WSFrame) :
    Except Unit (ServerSt × Bool) := do
  let c ← atConn st.conns id
  if c.state = CState.Connected then
    let c1 := { c with sendBuffer := c.sendBuffer ++ [OutItem.frame f] }
    return ({ st with conns := updateConn st.conns id c1 }, true)
  else
    return (st, false)

/-- `WSServer::close_connection` (ws_server.cc:401-414) at the server
level: `at` lookup, no-op unless Connected, else queue an empty Close
frame and move to Closing. -/
def close_connection (st : ServerSt) (id : Nat) : Except Unit ServerSt := do
  let c ← atConn st.conns id
  if c.state = CState.Connected then
    let c1 := { c with sendBuffer := c.sendBuffer ++ [OutItem.frame ⟨true, OpCode.close, ""⟩],
                       state := CState.Closing }
    return { st with conns := updateConn st.conns id c1 }
  else
    return st

/-- `WSServer<TCPSocket>::clear_buffer` (ws_server.cc:386-391): `at`
lookup, then clear the send buffer. -/
def clear_buffer (st : ServerSt) (id : Nat) : Except Unit ServerSt := do
  let c ← atConn st.conns id
  return { st with conns := updateConn st.conns id { c with sendBuffer := [] } }

/-- `WSServer::peer_addr` (ws_server.cc:431-437): `at` lookup, then the
socket's peer address. -/
def peer_addr (st : ServerSt) (id : Nat) : Except Unit String := do
  let c ← atConn st.conns id
  return c.peerAddress

/-- `WSServer::buffer_bytes` (ws_server.cc:439-456): `at` lookup, then
the sum of the buffered sizes plus the transport-internal count. The
byte size of a buffered item (the length of its serialization, done
outside src/) is passed in as `sz`. -/
def buffer_bytes (sz : OutItem → Nat) (st : ServerSt) (id : Nat) : Except Unit Nat := do
  let c ← atConn st.conns id
  return (c.sendBuffer.map sz).sum + c.socketBuffered

/-! ### Listener and admission control -/

/-- `MAX_CONNECTION_NUM` (ws_server.cc:19). -/
def maxConnectionNum : Nat := 60

/-- The listener-facing server state: the ids in the connection table,
the closed set, the listener's `active_` flag and `last_connection_id_`. -/
structure ListenSt where
  conns : List Nat
  closedSet : List Nat
  active : Bool
  nextId : Nat
deriving DecidableEq

/-- The accept callback (ws_server.cc:186-358 tail): insert a fresh
connection under the next identifier; if the table has then reached the
cap, close the listener and clear `active_`. -/
def acceptCb (st : ListenSt) : ListenSt :=
  let st1 : ListenSt := { st with conns := st.conns ++ [st.nextId], nextId := st.nextId + 1 }
  if maxConnectionNum ≤ st1.conns.length then { st1 with active := false } else st1

/-- Mark a connection id as closed (the closed-set insertion performed
by `drop_connection`). -/
def markClosed (st : ListenSt) (id : Nat) : ListenSt :=
  { st with closedSet := insertClosed st.closedSet id }

/-- The tail of `WSServer::loop_once` (ws_server.cc:458-475): erase
every closed connection, clear the closed set, and re-initialize the
listener when it is inactive and the population is below the cap. -/
def gcAndRelisten (st : ListenSt) : ListenSt :=
  let st1 : ListenSt := { st with conns := st.conns.filter (fun id => id ∉ st.closedSet),
                                  closedSet := [] }
  if st1.active = false ∧ st1.conns.length < maxConnectionNum then
    { st1 with active := true }
  else st1

/-! ### Plain-transport send-buffer draining -/

/-- `WSServer<TCPSocket>::Connection::write` (ws_server.cc:129-151).
The non-blocking socket is modelled from the spec transport contract as
accepting up to `cap` further bytes: each head buffer is written; when
the socket accepts only a proper prefix the head is replaced by the
unwritten suffix and the loop breaks, otherwise the head is popped and
draining continues. Returns (bytes that reached the wire, remaining
send buffer). -/
def connWritePlain (cap : Nat) : List (List Nat) → List Nat × List (List Nat)
  | [] => ([], [])
  | b :: rest =>
      let k := min b.length cap
      if k < b.length then
        (b.take k, b.drop k :: rest)
      else
        let r := connWritePlain (cap - k) rest
        (b ++ r.1, r.2)

/-! ### Concrete states and requests used in counterexamples and witnesses -/

/-- A request whose method token is `GETX` yet whose first three
characters are `GET`, with all other handshake requirements satisfied. -/
def getxRequest : HTTPRequest :=
  ⟨"GETX / HTTP/1.1",
   [("Connection", "Upgrade"), ("Upgrade", "websocket"),
    ("Sec-WebSocket-Key", "dGhlIHNhbXBsZSBub25jZQ=="), ("Origin", "http://example.org")]⟩

/-- A valid handshake request that lacks an `Origin` header. -/
def noOriginRequest : HTTPRequest :=
  ⟨"GET /ws HTTP/1.1",
   [("Connection", "keep-alive, Upgrade"), ("Upgrade", "websocket"),
    ("Sec-WebSocket-Key", "AQIDBAUGBwgJCgsMDQ4PEA==")]⟩

/-- A request rejected because its method is `POST`. -/
def postRequest : HTTPRequest :=
  ⟨"POST /ws HTTP/1.1",
   [("Connection", "Upgrade"), ("Upgrade", "websocket"),
    ("Sec-WebSocket-Key", "AQIDBAUGBwgJCgsMDQ4PEA=="), ("Origin", "http://example.org")]⟩

/-- A fully valid handshake request carrying the RFC 6455 sample key. -/
def sampleKeyRequest : HTTPRequest :=
  ⟨"GET /chat HTTP/1.1",
   [("Connection", "Upgrade"), ("Upgrade", "websocket"),
    ("Sec-WebSocket-Key", "dGhlIHNhbXBsZSBub25jZQ=="), ("Origin", "http://example.org")]⟩

/-- A Connected connection with an empty send buffer. -/
def connConnected : Conn := ⟨CState.Connected, [], 0, ""⟩

/-- A server whose table holds one live (Connected) connection under id 0. -/
def liveServerSt : ServerSt := ⟨[(0, ⟨CState.Connected, [], 0, ""⟩)], [], []⟩

/-- A listener state: three connections, one marked closed, listener inactive. -/
def sampleListenSt : ListenSt := ⟨[1, 2, 3], [2], false, 4⟩

/-! ### Helper lemmas -/

theorem findConn_updateConn (t : List (Nat × Conn)) (id : Nat) (c c0 : Conn)
    (h : findConn t id = some c0) :
    findConn (updateConn t id c) id = some c := by
  induction t with
  | nil => simp [findConn] at h
  | cons p rest ih =>
    by_cases hp : p.1 = id
    · simp [updateConn, findConn, hp]
    · simp only [findConn, if_neg hp] at h
      simp only [updateConn, List.map_cons, if_neg hp, findConn, hp, if_false]
      exact ih h

/-- The inductive invariant behind the at-most-one-Close property: the
ghost counter never exceeds one, and it is still zero whenever the
connection has not yet left the Connected zone of the state machine. -/
def lifeInv (s : Conn × Nat) : Prop :=
  s.2 ≤ 1 ∧
  ((s.1.state = CState.NotConnected ∨ s.1.state = CState.Connecting ∨
    s.1.state = CState.Connected) → s.2 = 0)

theorem lifeStep_inv (s : Conn × Nat) (e : Ev) (h : lifeInv s) : lifeInv (lifeStep s e) := by
  obtain ⟨⟨st, sb, bk, pa⟩, n⟩ := s
  obtain ⟨h1, h2⟩ := h
  simp only [lifeInv] at h2 ⊢
  cases e with
  | recv m =>
    cases m <;> cases st <;>
      simp_all [lifeStep, connectedDispatch, queueFrameConn, closeEchoCount]
  | appQueue f =>
    cases st <;> simp_all [lifeStep, queueFrameConn]
  | writeFire =>
    cases st <;> simp_all [lifeStep] <;> split <;> simp_all
  | handshakeOk =>
    cases st <;> simp_all [lifeStep]
  | handshakeBad =>
    cases st <;> simp_all [lifeStep]
  | parseFail =>
    cases st <;> simp_all [lifeStep, closeConnectionConn, queueFrameConn]
  | appClose =>
    cases st <;> simp_all [lifeStep, closeConnectionConn, queueFrameConn]
  | evDrop =>
    cases st <;> simp_all [lifeStep]

theorem lifeRun_inv (evs : List Ev) (s : Conn × Nat) (h : lifeInv s) :
    lifeInv (evs.foldl lifeStep s) := by
  induction evs generalizing s with
  | nil => exact h
  | cons e rest ih => exact ih _ (lifeStep_inv s e h)

/-! ### Claim theorems -/

/-- Claim C1, counterexample: the handshake validator does not accept
only requests whose method token equals `GET`. The request with first
line `GETX / HTTP/1.1` has method token `GETX`, yet it is accepted and
answered with 101 rather than 400, because the source only compares
`first_line.substr(0, 3)` with `GET`. -/
theorem handshake_method_check_counterexample :
    is_valid_handshake_request getxRequest = true ∧
    methodToken getxRequest.firstLine ≠ "GET" ∧
    (create_handshake_response getxRequest).firstLine ≠ "HTTP/1.1 400 Bad Request" := by
  refine ⟨by decide, by decide, ?_⟩
  have hv : is_valid_handshake_request getxRequest = true := by decide
  have ho : hasHeader getxRequest "Origin" = true := by decide
  simp [create_handshake_response, hv, ho]

/-- Claim C1, amended: the validator accepts exactly the requests whose
first line starts with the three characters `GET` (so any method token
with prefix `GET` passes), whose protocol token is `HTTP/1.1` or
`HTTP/2`, whose `Connection` header contains the substring `Upgrade`,
whose `Upgrade` header equals `websocket`, and which carry a
`Sec-WebSocket-Key` header; every rejected request is answered with
400 Bad Request. -/
theorem handshake_validator_characterization (r : HTTPRequest) :
    (is_valid_handshake_request r = true ↔
      (strTakeChars 3 r.firstLine = "GET".toList ∧
       (∃ tok, tokenAfterLastSpace r.firstLine = some tok ∧
          (tok = "HTTP/1.1" ∨ tok = "HTTP/2")) ∧
       hasHeader r "Connection" = true ∧
       strContainsSub (getHeaderValue r "Connection") "Upgrade" = true ∧
       hasHeader r "Upgrade" = true ∧
       getHeaderValue r "Upgrade" = "websocket" ∧
       hasHeader r "Sec-WebSocket-Key" = true)) ∧
    (is_valid_handshake_request r = false →
      (create_handshake_response r).firstLine = "HTTP/1.1 400 Bad Request") := by
  constructor
  · unfold is_valid_handshake_request
    cases htok : tokenAfterLastSpace r.firstLine with
    | none => simp [htok]
    | some tok => simp [htok]; tauto
  · intro h
    simp [create_handshake_response, h]

/-- Claim C1, witness: the `POST` request is rejected with 400. -/
theorem handshake_validator_characterization_witness :
    (create_handshake_response postRequest).firstLine = "HTTP/1.1 400 Bad Request" :=
  (handshake_validator_characterization postRequest).2 (by decide)

/-- Claim C2, counterexample: when the message parser has completed two
messages in one read fire, the Connected branch handles only the front
one; the second stays queued inside the parser instead of being handled
within that dispatch. -/
theorem connected_dispatch_single_message_counterexample :
    (connectedDispatch [WSMessage.text "a", WSMessage.text "b"] connConnected).delivered =
      [WSMessage.text "a"] ∧
    (connectedDispatch [WSMessage.text "a", WSMessage.text "b"] connConnected).parserRest =
      [WSMessage.text "b"] ∧
    [WSMessage.text "a"] ≠ [WSMessage.text "a", WSMessage.text "b"] :=
  ⟨rfl, rfl, by decide⟩

/-- Claim C2, amended: on a read fire in the Connected state only the
front completed message is handled (the rest stay in the parser queue),
and its disposition is as claimed: Text and Binary are delivered to the
message callback, Close queues an echo Close frame carrying the client
payload and moves the state to Closed, Ping queues an empty Pong frame,
and Pong is ignored. -/
theorem connected_dispatch_front_message (c : Conn) (rest : List WSMessage) (p : String)
    (h : c.state = CState.Connected) :
    connectedDispatch [] c = ⟨c, [], []⟩ ∧
    connectedDispatch (WSMessage.text p :: rest) c = ⟨c, [WSMessage.text p], rest⟩ ∧
    connectedDispatch (WSMessage.binary p :: rest) c = ⟨c, [WSMessage.binary p], rest⟩ ∧
    connectedDispatch (WSMessage.close p :: rest) c =
      ⟨{ c with state := CState.Closed,
                sendBuffer := c.sendBuffer ++ [OutItem.frame ⟨true, OpCode.close, p⟩] },
       [], rest⟩ ∧
    connectedDispatch (WSMessage.ping p :: rest) c =
      ⟨{ c with sendBuffer := c.sendBuffer ++ [OutItem.frame ⟨true, OpCode.pong, ""⟩] },
       [], rest⟩ ∧
    connectedDispatch (WSMessage.pong p :: rest) c = ⟨c, [], rest⟩ := by
  refine ⟨rfl, rfl, rfl, ?_, ?_, rfl⟩ <;> simp [connectedDispatch, queueFrameConn, h]

/-- Claim C2, witness: a client Close with payload `bye` on a Connected
connection queues an echo Close frame with payload `bye` and moves the
state to Closed. -/
theorem connected_dispatch_front_message_witness :
    connConnected.state = CState.Connected ∧
    connectedDispatch [WSMessage.close "bye"] connConnected =
      ⟨{ connConnected with state := CState.Closed,
                            sendBuffer := [OutItem.frame ⟨true, OpCode.close, "bye"⟩] },
       [], []⟩ :=
  ⟨rfl, (connected_dispatch_front_message connConnected [] "bye" rfl).2.2.2.1⟩

/-- Claim C3, counterexample: `drop_connection` invokes the close
callback once per call while the identifier is still in the table, so
two calls before garbage collection invoke it twice — close_callback is
not invoked exactly once no matter how many times drop_connection is
called. -/
theorem drop_connection_double_call_counterexample :
    (drop_connection (drop_connection liveServerSt 0) 0).closeLog = [0, 0] ∧
    [(0 : Nat), 0] ≠ [0] :=
  ⟨by decide, by decide⟩

/-- Claim C3, amended: `drop_connection` on a missing identifier returns
silently leaving the state unchanged; on a present identifier it sets
the connection's state to Closed, invokes the close callback exactly
once for that call, and inserts the identifier into the closed set.
Exactly one close upcall per live connection therefore holds only when
`drop_connection` is not called again before garbage collection erases
the identifier. -/
theorem drop_connection_behavior (st : ServerSt) (id : Nat) :
    (findConn st.conns id = none → drop_connection st id = st) ∧
    (∀ c, findConn st.conns id = some c →
      findConn (drop_connection st id).conns id = some { c with state := CState.Closed } ∧
      (drop_connection st id).closeLog = st.closeLog ++ [id] ∧
      id ∈ (drop_connection st id).closedSet) := by
  constructor
  · intro h
    simp [drop_connection, h]
  · intro c h
    refine ⟨?_, ?_, ?_⟩
    · simp only [drop_connection, h]
      exact findConn_updateConn st.conns id _ c h
    · simp [drop_connection, h]
    · simp only [drop_connection, h, insertClosed]
      by_cases hm : id ∈ st.closedSet <;> simp [hm]

/-- Claim C3, witness: dropping a missing id (5) is silent, and dropping
the live id 0 logs one close callback and marks 0 closed. -/
theorem drop_connection_behavior_witness :
    drop_connection liveServerSt 5 = liveServerSt ∧
    (drop_connection liveServerSt 0).closeLog = [0] ∧
    0 ∈ (drop_connection liveServerSt 0).closedSet :=
  ⟨(drop_connection_behavior liveServerSt 5).1 (by decide),
   ((drop_connection_behavior liveServerSt 0).2 ⟨CState.Connected, [], 0, ""⟩ (by decide)).2.1,
   ((drop_connection_behavior liveServerSt 0).2 ⟨CState.Connected, [], 0, ""⟩ (by decide)).2.2⟩

/-- Claim C4: the read-direction predicate is true exactly when the
state is neither Connecting nor Closed, and the write-direction
predicate is true exactly when the state is Connecting, or the state is
Connected, Closing or Closed and the connection has data to send (a
non-empty send buffer or transport-internal buffered bytes). -/
theorem activation_predicates_characterization (c : Conn) :
    (readPred c = true ↔ ¬(c.state = CState.Connecting ∨ c.state = CState.Closed)) ∧
    (writePred c = true ↔
      (c.state = CState.Connecting ∨
       ((c.state = CState.Connected ∨ c.state = CState.Closing ∨ c.state = CState.Closed) ∧
        (c.sendBuffer ≠ [] ∨ 0 < c.socketBuffered)))) := by
  constructor
  · simp [readPred]
  · simp [writePred, dataToSend, List.isEmpty_iff]
    tauto

/-- Claim C4, witness: the characterization evaluated on a Connected
connection with an empty send buffer. -/
theorem activation_predicates_characterization_witness :
    (readPred connConnected = true ↔
      ¬(connConnected.state = CState.Connecting ∨ connConnected.state = CState.Closed)) ∧
    (writePred connConnected = true ↔
      (connConnected.state = CState.Connecting ∨
       ((connConnected.state = CState.Connected ∨ connConnected.state = CState.Closing ∨
         connConnected.state = CState.Closed) ∧
        (connConnected.sendBuffer ≠ [] ∨ 0 < connConnected.socketBuffered)))) :=
  activation_predicates_characterization connConnected

/-- Claim C5: given the inductive invariant that an active listener
implies a population below the cap, the garbage-collection tail of
`loop_once` re-establishes that the active flag is true iff the
connection count is strictly below the cap; the accept callback
establishes the same equivalence, and every operation (accept, marking
a connection closed, the gc pass itself) preserves the invariant. -/
theorem listener_active_iff_below_cap (st : ListenSt)
    (hInv : st.active = true → st.conns.length < maxConnectionNum) :
    ((gcAndRelisten st).active = true ↔
      (gcAndRelisten st).conns.length < maxConnectionNum) ∧
    (st.active = true →
      ((acceptCb st).active = true ↔ (acceptCb st).conns.length < maxConnectionNum)) ∧
    ((gcAndRelisten st).active = true →
      (gcAndRelisten st).conns.length < maxConnectionNum) ∧
    ((acceptCb st).active = true → (acceptCb st).conns.length < maxConnectionNum) ∧
    (∀ id, (markClosed st id).active = true →
      (markClosed st id).conns.length < maxConnectionNum) := by
  have hfil : (st.conns.filter (fun id => id ∉ st.closedSet)).length ≤ st.conns.length :=
    List.length_filter_le _ _
  have hgc : (gcAndRelisten st).active = true ↔
      (gcAndRelisten st).conns.length < maxConnectionNum := by
    unfold gcAndRelisten
    by_cases ha : st.active = true
    · have hlen := hInv ha
      rw [if_neg]
      · simp only [ha, true_iff]
        omega
      · simp [ha]
    · have ha' : st.active = false := by
        cases h : st.active
        · rfl
        · exact absurd h ha
      by_cases hl : (st.conns.filter (fun id => id ∉ st.closedSet)).length < maxConnectionNum
      · rw [if_pos]
        · simpa using hl
        · exact ⟨ha', hl⟩
      · rw [if_neg]
        · simp only [ha']
          constructor
          · intro h; exact absurd h (by simp)
          · intro h; exact absurd h hl
        · intro hc
          exact hl hc.2
  have hacc : st.active = true →
      ((acceptCb st).active = true ↔ (acceptCb st).conns.length < maxConnectionNum) := by
    intro ha
    unfold acceptCb
    by_cases hc : maxConnectionNum ≤ st.conns.length + 1
    · rw [if_pos (by simpa using hc)]
      simp
      omega
    · rw [if_neg (by simpa using hc)]
      simp [ha]
      omega
  refine ⟨hgc, hacc, fun h => hgc.mp h, ?_, ?_⟩
  · intro h
    by_cases ha : st.active = true
    · exact (hacc ha).mp h
    · unfold acceptCb at h
      by_cases hc : maxConnectionNum ≤ st.conns.length + 1
      · rw [if_pos (by simpa using hc)] at h
        simp at h
      · rw [if_neg (by simpa using hc)] at h
        simp at h
        exact absurd h ha
  · intro id h
    simp only [markClosed] at h ⊢
    exact hInv h

/-- Claim C5, witness: on a concrete inactive listener with three
connections (one closed), the gc pass re-arms the listener and the
equivalence holds; marking another id closed preserves the invariant. -/
theorem listener_active_iff_below_cap_witness :
    ((gcAndRelisten sampleListenSt).active = true ↔
      (gcAndRelisten sampleListenSt).conns.length < maxConnectionNum) ∧
    ((markClosed sampleListenSt 9).active = true →
      (markClosed sampleListenSt 9).conns.length < maxConnectionNum) :=
  ⟨(listener_active_iff_below_cap sampleListenSt (by decide)).1,
   (listener_active_iff_below_cap sampleListenSt (by decide)).2.2.2.2 9⟩

/-- Claim C6: every valid handshake request with an Origin header is
answered 101 with a `Sec-WebSocket-Accept` header equal to
`base64(sha1(key ++ magic))`; for the RFC 6455 sample key the accept
value is the standard test vector. -/
theorem handshake_accept_header_value :
    (∀ r : HTTPRequest, is_valid_handshake_request r = true → hasHeader r "Origin" = true →
      (create_handshake_response r).firstLine = "HTTP/1.1 101 Switching Protocols" ∧
      (create_handshake_response r).headers.lookup "Sec-WebSocket-Accept" =
        some (String.mk (b64Encode (sha1Bytes (strBytes
          (getHeaderValue r "Sec-WebSocket-Key" ++
           "258EAFA5-E914-47DA-95CA-C5AB0DC85B11")))))) ∧
    secWebSocketAccept "dGhlIHNhbXBsZSBub25jZQ==" = "s3pPLMBiTxaQ9kYGzzhZRbK+xOo=" := by
  constructor
  · intro r hv ho
    refine ⟨by simp [create_handshake_response, hv, ho], ?_⟩
    simp [create_handshake_response, hv, ho, List.lookup, secWebSocketAccept, wsMagicString]
  · set_option maxRecDepth 8000 in decide

/-- Claim C6, witness: the 101 response to the sample request carries
the computed accept header. -/
theorem handshake_accept_header_value_witness :
    (create_handshake_response sampleKeyRequest).firstLine =
      "HTTP/1.1 101 Switching Protocols" ∧
    (create_handshake_response sampleKeyRequest).headers.lookup "Sec-WebSocket-Accept" =
      some (String.mk (b64Encode (sha1Bytes (strBytes
        (getHeaderValue sampleKeyRequest "Sec-WebSocket-Key" ++
         "258EAFA5-E914-47DA-95CA-C5AB0DC85B11"))))) :=
  handshake_accept_header_value.1 sampleKeyRequest (by decide) (by decide)

/-- Claim C7: on a plain transport whose socket will accept `cap` more
bytes, `Connection::write` sends exactly the longest possible prefix of
the concatenated send buffer and retains exactly the unsent suffix, so
buffers reach the wire front to back and no accepted byte is retained
or re-sent. -/
theorem plain_write_drains_fifo (cap : Nat) (bufs : List (List Nat)) :
    (connWritePlain cap bufs).1 ++ (connWritePlain cap bufs).2.flatten = bufs.flatten ∧
    ((connWritePlain cap bufs).1).length = min cap bufs.flatten.length := by
  induction bufs generalizing cap with
  | nil => simp [connWritePlain]
  | cons b rest ih =>
    rcases Nat.lt_or_ge cap b.length with hlt | hge
    · have hk : min b.length cap = cap := by omega
      rw [show connWritePlain cap (b :: rest) = (b.take cap, b.drop cap :: rest) by
            simp only [connWritePlain, hk]
            rw [if_pos hlt]]
      constructor
      · simp only [List.flatten_cons, ← List.append_assoc, List.take_append_drop]
      · simp only [List.length_take, List.flatten_cons, List.length_append]
        omega
    · have hk : min b.length cap = b.length := by omega
      have hnot : ¬ (b.length < b.length) := by omega
      obtain ⟨ih1, ih2⟩ := ih (cap - b.length)
      rw [show connWritePlain cap (b :: rest) =
            (b ++ (connWritePlain (cap - b.length) rest).1,
             (connWritePlain (cap - b.length) rest).2) by
            simp only [connWritePlain, hk]
            rw [if_neg hnot]]
      constructor
      · simp only [List.flatten_cons, List.append_assoc, ih1]
      · simp only [List.length_append, List.flatten_cons, ih2]
        omega

/-- Claim C8: a valid handshake request without an Origin header is
answered 403 Forbidden, and every error response (400 or 403) carries
exactly the headers `Content-Length: 0` and `Connection: close` and an
empty body. -/
theorem error_response_shape (r : HTTPRequest) :
    (is_valid_handshake_request r = true → hasHeader r "Origin" = false →
      create_handshake_response r =
        ⟨"HTTP/1.1 403 Forbidden", [("Content-Length", "0"), ("Connection", "close")], ""⟩) ∧
    (is_valid_handshake_request r = false →
      create_handshake_response r =
        ⟨"HTTP/1.1 400 Bad Request", [("Content-Length", "0"), ("Connection", "close")], ""⟩) := by
  constructor
  · intro hv ho
    simp [create_handshake_response, hv, ho]
  · intro hv
    simp [create_handshake_response, hv]

/-- Claim C8, witness: the Origin-less valid request receives the 403
response and the POST request the 400 response, both with
`Content-Length: 0`, `Connection: close` and an empty body. -/
theorem error_response_shape_witness :
    create_handshake_response noOriginRequest =
      ⟨"HTTP/1.1 403 Forbidden", [("Content-Length", "0"), ("Connection", "close")], ""⟩ ∧
    create_handshake_response postRequest =
      ⟨"HTTP/1.1 400 Bad Request", [("Content-Length", "0"), ("Connection", "close")], ""⟩ :=
  ⟨(error_response_shape noOriginRequest).1 (by decide) (by decide),
   (error_response_shape postRequest).2 (by decide)⟩

/-- Claim C9: along every sequence of lifecycle events, the two
Close-queueing sites (`close_connection` and the Connected-state Close
echo) together append at most one Close frame to a connection's send
buffer over its whole lifetime. -/
theorem at_most_one_close_frame (evs : List Ev) : (lifeRun evs).2 ≤ 1 :=
  (lifeRun_inv evs (initConn, 0) ⟨Nat.zero_le 1, fun _ => rfl⟩).1

/-- Claim C10: on an identifier absent from the connection table,
`queue_frame`, `close_connection`, `clear_buffer`, `peer_addr` and
`buffer_bytes` all throw (the `connections_.at` lookup raises
`std::out_of_range`), while `drop_connection` returns silently with the
state unchanged. -/
theorem missing_id_operations_throw (st : ServerSt) (id : Nat) (f : WSFrame)
    (sz : OutItem → Nat) (h : findConn st.conns id = none) :
    queue_frame st id f = Except.error () ∧
    close_connection st id = Except.error () ∧
    clear_buffer st id = Except.error () ∧
    peer_addr st id = Except.error () ∧
    buffer_bytes sz st id = Except.error () ∧
    drop_connection st id = st := by
  refine ⟨?_, ?_, ?_, ?_, ?_, ?_⟩ <;>
    simp [queue_frame, close_connection, clear_buffer, peer_addr, buffer_bytes,
          drop_connection, atConn, h, Bind.bind, Except.bind]

/-- Claim C10, witness: the five methods throw and `drop_connection` is
silent on an empty table. -/
theorem missing_id_operations_throw_witness :
    queue_frame ⟨[], [], []⟩ 7 ⟨true, OpCode.text, "hi"⟩ = Except.error () ∧
    close_connection ⟨[], [], []⟩ 7 = Except.error () ∧
    clear_buffer ⟨[], [], []⟩ 7 = Except.error () ∧
    peer_addr ⟨[], [], []⟩ 7 = Except.error () ∧
    buffer_bytes (fun _ => 0) ⟨[], [], []⟩ 7 = Except.error () ∧
    drop_connection ⟨[], [], []⟩ 7 = ⟨[], [], []⟩ :=
  missing_id_operations_throw ⟨[], [], []⟩ 7 ⟨true, OpCode.text, "hi"⟩ (fun _ => 0) (by decide)

end WsServer
